import Mathlib

set_option maxHeartbeats 1000000

/-!
Shallow embedding of src/worker.py (BotClusters process supervisor).

The external world (filesystem, subprocess spawning, the base process
environment) is abstracted as an oracle that fixes the outcome of every
external operation; the embedded functions compute the sequence of external
actions performed, the log records emitted, and the value returned,
mirroring the Python source line by line.
-/

/-- JSON scalar values that may appear in a config entry's env mapping. -/
inductive JVal where
  | jnull : JVal
  | jbool : Bool → JVal
  | jint : Int → JVal
  | jstr : String → JVal
deriving DecidableEq

/-- Python str() rendering of a JSON scalar; worker.py line 67 applies str to
every non-null env value before placing it into the merged environment. -/
def pystr : JVal → String
  | JVal.jnull => "None"
  | JVal.jbool true => "True"
  | JVal.jbool false => "False"
  | JVal.jint n => toString n
  | JVal.jstr s => s

/-- One config entry: a JSON object value from config.json.  Field presence is
optional because load_config (worker.py line 41) checks key membership. -/
structure BotConfig where
  source : Option String
  run : Option String
  env : Option (List (String × JVal))
  branch : Option String
deriving DecidableEq

/-- Severity of a log record. -/
inductive Level where
  | info : Level
  | warning : Level
  | error : Level
deriving DecidableEq

/-- A log record: severity and message. -/
structure LogEntry where
  level : Level
  msg : String
deriving DecidableEq

/-- Build a log record. -/
def mkLog (lv : Level) (m : String) : LogEntry := ⟨lv, m⟩

/-- Lookup in a Python-dict-like association list (first matching key). -/
def envGet : List (String × String) → String → Option String
  | [], _ => none
  | (k', v) :: rest, k => if k' = k then some v else envGet rest k

/-- Python dict assignment d[k] = v: update the existing binding in place,
or append a fresh binding at the end. -/
def envSet : List (String × String) → String → String → List (String × String)
  | [], k, v => [(k, v)]
  | (k', v') :: rest, k, v =>
    if k' = k then (k, v) :: rest else (k', v') :: envSet rest k v

/-- worker.py lines 62-67: bot_env = os.environ.copy(); then for each env
entry, skip it when the value is None, otherwise set str(value). -/
def mergeEnv (base : List (String × String)) (env : List (String × JVal)) :
    List (String × String) :=
  env.foldl (fun acc kv =>
    match kv.2 with
    | JVal.jnull => acc
    | v => envSet acc kv.1 (pystr v)) base

/-- Log records emitted by the env loop (worker.py line 68), one per non-null
env entry. -/
def envLogs (name : String) (env : List (String × JVal)) : List LogEntry :=
  env.filterMap (fun kv =>
    match kv.2 with
    | JVal.jnull => none
    | _ => some (mkLog Level.info
        ("Setting environment variable " ++ kv.1 ++ " for " ++ name ++ ".")))

/-- Python name.replace(space, underscore), worker.py line 70. -/
def replaceSpaces (s : String) : String :=
  String.mk (s.toList.map (fun c => if c = ' ' then '_' else c))

/-- worker.py line 70: bot_dir = Path of /app joined with the sanitized name. -/
def botDir (name : String) : String := "/app/" ++ replaceSpaces name

/-- worker.py line 97: per-bot log file path. -/
def logPath (name : String) : String := "/app/logs/" ++ name ++ ".log"

/-- Path join as pathlib performs it for the paths used here: an absolute
right operand replaces the left one. -/
def pathJoin (a b : String) : String :=
  if b.toList.head? = some '/' then b else a ++ "/" ++ b

/-- Index of the last occurrence of a character in a list. -/
def lastIdxOf (c : Char) : List Char → Option Nat
  | [] => none
  | x :: xs =>
    match lastIdxOf c xs with
    | some i => some (i + 1)
    | none => if x = c then some 0 else none

/-- Python pathlib suffix: the extension of the final path component, i.e.
from the last dot, provided that dot is neither the first nor the last
character of the component; empty otherwise. -/
def pySuffix (p : String) : String :=
  let name := (p.toList.reverse.takeWhile (fun c => c ≠ '/')).reverse
  match lastIdxOf '.' name with
  | none => ""
  | some i => if 0 < i ∧ i + 1 < name.length then String.mk (name.drop i) else ""

/-- worker.py line 45: source.startswith of the four characters h t t p. -/
def startsWithHttp (s : String) : Bool :=
  s.toList.take 4 == ['h', 't', 't', 'p']

/-- worker.py line 41: all three required keys are present. -/
def hasRequiredFields (cfg : BotConfig) : Bool :=
  cfg.source.isSome && cfg.run.isSome && cfg.env.isSome

/-- Some required key among source, run, env is missing. -/
def missingRequired (cfg : BotConfig) : Bool := !(hasRequiredFields cfg)

/-- An entry that passes both validation checks of load_config. -/
def entryOk (cfg : BotConfig) : Bool :=
  hasRequiredFields cfg && startsWithHttp (cfg.source.getD "")

/-- worker.py line 39: the generated two-word label for the i-th entry,
prefixed to the configured base name with a space.  The randomness source of
generate_prefix is abstracted as the oracle gen. -/
def prefixedName (gen : Nat → String) (i : Nat) (name : String) : String :=
  gen i ++ " " ++ name

/-- worker.py lines 37-50: the loop body of load_config over the remaining
entries, with i counting the generate_prefix calls made so far.  A raised
ValueError is an error result; it aborts the whole load. -/
def loadLoop (gen : Nat → String) :
    Nat → List (String × BotConfig) → Except String (List (String × BotConfig))
  | _, [] => Except.ok []
  | i, (name, cfg) :: rest =>
    let pname := prefixedName gen i name
    if missingRequired cfg then
      Except.error ("Invalid configuration for " ++ pname ++ ".")
    else if !(startsWithHttp (cfg.source.getD "")) then
      Except.error ("Invalid source URL for " ++ pname ++ ".")
    else
      match loadLoop gen (i + 1) rest with
      | Except.error e => Except.error e
      | Except.ok tail => Except.ok ((pname, cfg) :: tail)

/-- worker.py load_config: validate every entry, keying the result by the
prefixed identity; all-or-nothing. -/
def load_config (gen : Nat → String) (doc : List (String × BotConfig)) :
    Except String (List (String × BotConfig)) :=
  loadLoop gen 0 doc

/-- The identities load_config assigns to a list of entries starting at
generate_prefix call i. -/
def prefixAll (gen : Nat → String) :
    Nat → List (String × BotConfig) → List (String × BotConfig)
  | _, [] => []
  | i, (name, cfg) :: rest =>
    (prefixedName gen i name, cfg) :: prefixAll gen (i + 1) rest

/-- Decidable equality of Except results, for evaluating the loader on
concrete documents. -/
instance {ε α : Type} [DecidableEq ε] [DecidableEq α] : DecidableEq (Except ε α) := fun
  | Except.error e, Except.error f =>
    if h : e = f then Decidable.isTrue (by rw [h]) else Decidable.isFalse (by simp [h])
  | Except.error _, Except.ok _ => Decidable.isFalse (by simp)
  | Except.ok _, Except.error _ => Decidable.isFalse (by simp)
  | Except.ok a, Except.ok b =>
    if h : a = b then Decidable.isTrue (by rw [h]) else Decidable.isFalse (by simp [h])

/-- Exceptions the try block of start_bot (worker.py lines 75-107) can raise
and its handlers (lines 109-114) catch: CalledProcessError from the
check=True pip run, and OSError from any directory, open, or spawn call. -/
inductive PyExc where
  | calledProcessError : String → PyExc
  | osError : String → PyExc
deriving DecidableEq

/-- Outcome of a completed subprocess.run call with capture_output. -/
structure CmdResult where
  returncode : Int
  stderr : String
deriving DecidableEq

/-- Fixes every external outcome a single start_bot invocation can observe:
the base process environment, the initial state of the bot directory (none =
absent, some fs = present holding files fs), and for each external operation
either success or the diagnostic of the OSError (or exit status) it yields. -/
structure Oracle where
  baseEnv : List (String × String)
  dirFiles : Option (List String)
  mkdirErr : Option String
  rmtreeErr : Option String
  cloneSpawn : Except String CmdResult
  reqExists : Bool
  pipSpawn : Except String Int
  openErr : Option String
  execSpawn : Option String

/-- An external action performed by the runner, in order.  runCmd records
argv, cwd, the environment passed, and the stdout and stderr redirection
targets. -/
inductive Act where
  | sleep : Nat → Act
  | mkdirA : String → Act
  | rmtreeA : String → Act
  | openLog : String → Act
  | runCmd : List String → Option String → Option (List (String × String)) →
      Option String → Option String → Act
deriving DecidableEq

/-- The effect of a fragment of the try block: actions performed, log
records emitted, and either a value or the exception escaping it. -/
abbrev Effect (α : Type) := List Act × List LogEntry × Except PyExc α

/-- Sequencing of effects: an exception aborts the rest, keeping the actions
and logs performed so far. -/
def andThen {α β : Type} (t : Effect α) (f : α → Effect β) : Effect β :=
  match t with
  | (as, ls, Except.error e) => (as, ls, Except.error e)
  | (as, ls, Except.ok a) => (as ++ (f a).1, ls ++ (f a).2.1, (f a).2.2)

/-- worker.py lines 76-82 as a pure transition on the directory state:
create the directory when absent, then remove it since it now exists
(none = absent, some fs = present with files fs). -/
def prepare_dir (s : Option (List String)) : Option (List String) :=
  let s1 := if s.isNone then some ([] : List String) else s
  if s1.isSome then none else s1

/-- worker.py lines 76-82 with oracle-injected OSError outcomes: mkdir when
the directory is absent, then rmtree since it exists afterwards.  Returns
the resulting directory state. -/
def stepPrepare (name : String) (o : Oracle) : Effect (Option (List String)) :=
  let dir := botDir name
  andThen
    (if o.dirFiles.isNone then
      match o.mkdirErr with
      | some m =>
        ([Act.mkdirA dir],
         [mkLog Level.info ("Creating directory for " ++ name ++ ": " ++ dir)],
         Except.error (PyExc.osError m))
      | none =>
        ([Act.mkdirA dir],
         [mkLog Level.info ("Creating directory for " ++ name ++ ": " ++ dir)],
         Except.ok (some ([] : List String)))
    else ([], [], Except.ok o.dirFiles))
    (fun d1 =>
      if d1.isSome then
        match o.rmtreeErr with
        | some m =>
          ([Act.rmtreeA dir],
           [mkLog Level.info ("Removing existing directory: " ++ dir)],
           Except.error (PyExc.osError m))
        | none =>
          ([Act.rmtreeA dir],
           [mkLog Level.info ("Removing existing directory: " ++ dir)],
           Except.ok none)
      else ([], [], Except.ok d1))

/-- worker.py line 85: the git clone argument vector. -/
def gitArgv (branch src dir : String) : List String :=
  ["git", "clone", "-b", branch, "--single-branch", src, dir]

/-- worker.py lines 84-89: run git clone with check=False; a non-zero exit
logs the captured stderr and yields false (the function then returns None);
zero yields true. -/
def stepClone (name : String) (cfg : BotConfig) (o : Oracle) : Effect Bool :=
  let dir := botDir name
  let src := cfg.source.getD ""
  let branch := cfg.branch.getD "main"
  let act := Act.runCmd (gitArgv branch src dir) none none none none
  let lg := mkLog Level.info
    ("Cloning " ++ name ++ " from " ++ src ++ " (branch: " ++ branch ++ ")")
  match o.cloneSpawn with
  | Except.error m => ([act], [lg], Except.error (PyExc.osError m))
  | Except.ok r =>
    if r.returncode ≠ 0 then
      ([act],
       [lg, mkLog Level.error ("Error while cloning " ++ name ++ ": " ++ r.stderr)],
       Except.ok false)
    else ([act], [lg], Except.ok true)

/-- worker.py line 94: the pip install argument vector. -/
def pipArgv (req : String) : List String :=
  ["pip", "install", "--no-cache-dir", "-r", req]

/-- worker.py lines 92-94: when requirements.txt exists, run pip with
check=True, so a non-zero exit raises CalledProcessError. -/
def stepPip (name : String) (o : Oracle) : Effect Unit :=
  let req := botDir name ++ "/requirements.txt"
  let act := Act.runCmd (pipArgv req) none none none none
  let lg := mkLog Level.info ("Installing requirements for " ++ name)
  if o.reqExists then
    match o.pipSpawn with
    | Except.error m => ([act], [lg], Except.error (PyExc.osError m))
    | Except.ok rc =>
      if rc ≠ 0 then
        ([act], [lg],
         Except.error (PyExc.calledProcessError
           ("Command pip install returned non-zero exit status " ++ toString rc ++ ".")))
      else ([act], [lg], Except.ok ())
  else ([], [], Except.ok ())

/-- worker.py lines 99-104: the interpreter dispatch on the entry-point
extension. -/
def execArgv (file : String) : List String :=
  if pySuffix file = ".sh" then ["bash", file] else ["python3", file]

/-- The log record emitted alongside the dispatch (lines 100 and 103). -/
def execLogMsg (name file : String) : LogEntry :=
  if pySuffix file = ".sh" then
    mkLog Level.info ("Starting " ++ name ++ " bot with bash script: " ++ file)
  else
    mkLog Level.info ("Starting " ++ name ++ " bot with Python script: " ++ file)

/-- worker.py lines 97-104: open (create/truncate) the per-bot log file and
run the chosen interpreter with cwd = the bot directory, the merged
environment, and stdout and stderr both redirected to the log file. -/
def stepExec (name : String) (cfg : BotConfig) (benv : List (String × String))
    (o : Oracle) : Effect Unit :=
  let dir := botDir name
  let file := pathJoin dir (cfg.run.getD "")
  let lf := logPath name
  match o.openErr with
  | some m => ([Act.openLog lf], [], Except.error (PyExc.osError m))
  | none =>
    let acts := [Act.openLog lf,
      Act.runCmd (execArgv file) (some dir) (some benv) (some lf) (some lf)]
    match o.execSpawn with
    | some m => (acts, [execLogMsg name file], Except.error (PyExc.osError m))
    | none => (acts, [execLogMsg name file], Except.ok ())

/-- worker.py lines 75-107: the try block of start_bot.  A clone failure
returns None from inside the try (value ok none); success reaches the
line-106 record and returns the log path. -/
def tryBody (name : String) (cfg : BotConfig) (benv : List (String × String))
    (o : Oracle) : Effect (Option String) :=
  andThen (stepPrepare name o) (fun _ =>
    andThen (stepClone name cfg o) (fun cloneOk =>
      if cloneOk then
        andThen (stepPip name o) (fun _ =>
          andThen (stepExec name cfg benv o) (fun _ =>
            ([], [mkLog Level.info
              (name ++ " started successfully. Logs can be found in " ++ logPath name)],
             Except.ok (some (logPath name)))))
      else ([], [], Except.ok none)))

/-- What one start_bot invocation did and returned. -/
structure StartResult where
  actions : List Act
  logs : List LogEntry
  result : Option String
deriving DecidableEq

/-- worker.py lines 59-68: the records emitted before the try block. -/
def startLogs (name : String) (cfg : BotConfig) : List LogEntry :=
  mkLog Level.info ("Starting bot: " ++ name) :: envLogs name (cfg.env.getD [])

/-- worker.py lines 58-114: start_bot.  Sleeps, merges the environment, runs
the try block, and converts a caught CalledProcessError or OSError into an
error log record plus a None return. -/
def start_bot (name : String) (cfg : BotConfig) (o : Oracle) : StartResult :=
  let benv := mergeEnv o.baseEnv (cfg.env.getD [])
  let t := tryBody name cfg benv o
  match t.2.2 with
  | Except.ok v => ⟨Act.sleep 5 :: t.1, startLogs name cfg ++ t.2.1, v⟩
  | Except.error (PyExc.calledProcessError m) =>
    ⟨Act.sleep 5 :: t.1,
     startLogs name cfg ++ t.2.1 ++
       [mkLog Level.error ("Error while processing " ++ name ++ ": " ++ m)],
     none⟩
  | Except.error (PyExc.osError m) =>
    ⟨Act.sleep 5 :: t.1,
     startLogs name cfg ++ t.2.1 ++
       [mkLog Level.error ("Unexpected error while starting " ++ name ++ ": " ++ m)],
     none⟩

/-- A tracked subprocess handle: whether wait(timeout=5) after terminate()
completes within the bound. -/
structure ProcHandle where
  stopsWithinTimeout : Bool
deriving DecidableEq

/-- Python dict .get on the tracking table. -/
def lookupHandle : List (String × ProcHandle) → String → Option ProcHandle
  | [], _ => none
  | (n, h) :: rest, name => if n = name then some h else lookupHandle rest name

/-- Process-level actions of the stop path. -/
inductive StopAct where
  | terminate : StopAct
  | waitFor : Nat → StopAct
  | kill : StopAct
deriving DecidableEq

/-- worker.py lines 116-128: stop_bot.  Look the name up in bot_processes;
if found, terminate then wait up to 5 seconds, force-killing on
TimeoutExpired (logged as a warning); otherwise warn that no process is
tracked.  Returns normally in every case. -/
def stop_bot (table : List (String × ProcHandle)) (name : String) :
    List StopAct × List LogEntry :=
  let pre := [mkLog Level.info ("Stopping bot: " ++ name)]
  match lookupHandle table name with
  | none =>
    ([], pre ++ [mkLog Level.warning ("No running process found for bot: " ++ name)])
  | some p =>
    if p.stopsWithinTimeout then
      ([StopAct.terminate, StopAct.waitFor 5],
       pre ++ [mkLog Level.info ("Bot " ++ name ++ " stopped successfully.")])
    else
      ([StopAct.terminate, StopAct.waitFor 5, StopAct.kill],
       pre ++ [mkLog Level.warning
         ("Bot " ++ name ++ " did not terminate in time; force killing...")])

/-- worker.py lines 140-153 (main): submit start_bot for every loaded bot and
collect each result.  start_bot (lines 58-114) contains no statement that
reads or writes bot_processes, so the launch phase passes the tracking table
through unchanged; the per-workload oracle ow fixes each launch's external
outcomes. -/
def run_launches (bots : List (String × BotConfig)) (ow : String → Oracle)
    (table : List (String × ProcHandle)) :
    List (String × Option String) × List (String × ProcHandle) :=
  (bots.map (fun p => (p.1, (start_bot p.1 p.2 (ow p.1)).result)), table)

/-- Process exit status of the supervisor: load_config runs at module import
(worker.py line 55), so a ValueError there aborts the interpreter with a
non-zero status; otherwise main collects every future result under a
catch-all handler (lines 147-151) and the process ends with status 0. -/
def supervisor_exit_code (doc : List (String × BotConfig)) (gen : Nat → String)
    (ow : String → Oracle) : Nat :=
  match load_config gen doc with
  | Except.error _ => 1
  | Except.ok bots =>
    let _results := (run_launches bots ow []).1
    0

/-- A config entry that passes validation and whose launch succeeds end to
end, used as a concrete test input. -/
def echoCfg : BotConfig :=
  { source := some "https://example.test/repo.git"
    run := some "echo.py"
    env := some []
    branch := none }

/-- An oracle under which every external operation of start_bot succeeds. -/
def okOracle : Oracle :=
  { baseEnv := []
    dirFiles := none
    mkdirErr := none
    rmtreeErr := none
    cloneSpawn := Except.ok ⟨0, ""⟩
    reqExists := false
    pipSpawn := Except.ok 0
    openErr := none
    execSpawn := none }

/-- The action is a git clone invocation. -/
def isGitClone : Act → Bool
  | Act.runCmd ("git" :: _) _ _ _ _ => true
  | _ => false

/-- The action is a pip install invocation. -/
def isPipInstall : Act → Bool
  | Act.runCmd ("pip" :: _) _ _ _ _ => true
  | _ => false

/-- The action is a workload-execution invocation (bash or python3). -/
def isExecCmd : Act → Bool
  | Act.runCmd (i :: _) _ _ _ _ => i == "bash" || i == "python3"
  | _ => false

/-- The action opens a per-bot log file. -/
def isOpenLog : Act → Bool
  | Act.openLog _ => true
  | _ => false

/-- A config entry missing the run field, used as a concrete test input. -/
def badFieldCfg : BotConfig :=
  { source := some "https://example.test/repo.git"
    run := none
    env := some []
    branch := none }

/-- A config entry whose source lacks the network scheme, used as a concrete
test input. -/
def badSchemeCfg : BotConfig :=
  { source := some "git@example.test:repo.git"
    run := some "echo.py"
    env := some []
    branch := none }

/-- A config entry whose entry point is a shell script, used as a concrete
test input. -/
def shellCfg : BotConfig :=
  { source := some "https://example.test/repo.git"
    run := some "start.sh"
    env := some [("A", JVal.jstr "1"), ("B", JVal.jnull)]
    branch := some "dev" }

/-- An oracle whose git clone exits with status 128, used as a concrete test
input. -/
def cloneFailOracle : Oracle :=
  { baseEnv := [("PATH", "/usr/bin")]
    dirFiles := some ["old.txt"]
    mkdirErr := none
    rmtreeErr := none
    cloneSpawn := Except.ok ⟨128, "fatal: repository not found"⟩
    reqExists := false
    pipSpawn := Except.ok 0
    openErr := none
    execSpawn := none }

lemma envGet_envSet_self (e : List (String × String)) (k v : String) :
    envGet (envSet e k v) k = some v := by
  induction e with
  | nil => simp [envSet, envGet]
  | cons p rest ih =>
    obtain ⟨k', v'⟩ := p
    by_cases h : k' = k
    · subst h; simp [envSet, envGet]
    · simp [envSet, envGet, h, ih]

lemma envGet_envSet_other (e : List (String × String)) (k v k' : String)
    (h : k' ≠ k) : envGet (envSet e k v) k' = envGet e k' := by
  induction e with
  | nil => simp [envSet, envGet, Ne.symm h]
  | cons p rest ih =>
    obtain ⟨k0, v0⟩ := p
    by_cases h0 : k0 = k
    · subst h0
      simp [envSet, envGet, Ne.symm h]
    · simp only [envSet, if_neg h0]
      by_cases h1 : k0 = k'
      · subst h1; simp [envGet]
      · simp [envGet, h1, ih]

lemma mergeEnv_cons_null (base : List (String × String)) (k : String)
    (rest : List (String × JVal)) :
    mergeEnv base ((k, JVal.jnull) :: rest) = mergeEnv base rest := rfl

lemma mergeEnv_cons_val (base : List (String × String)) (k : String) (v : JVal)
    (rest : List (String × JVal)) (hv : v ≠ JVal.jnull) :
    mergeEnv base ((k, v) :: rest) = mergeEnv (envSet base k (pystr v)) rest := by
  cases v with
  | jnull => exact absurd rfl hv
  | jbool b => rfl
  | jint n => rfl
  | jstr s => rfl

lemma mergeEnv_not_mem (env : List (String × JVal)) :
    ∀ (base : List (String × String)) (k : String), k ∉ env.map Prod.fst →
      envGet (mergeEnv base env) k = envGet base k := by
  induction env with
  | nil => intro base k _; rfl
  | cons kv rest ih =>
    intro base k h
    obtain ⟨k0, v0⟩ := kv
    simp only [List.map_cons, List.mem_cons, not_or] at h
    obtain ⟨hne, hrest⟩ := h
    by_cases hv0 : v0 = JVal.jnull
    · subst hv0
      rw [mergeEnv_cons_null]
      exact ih base k hrest
    · rw [mergeEnv_cons_val base k0 v0 rest hv0, ih _ k hrest,
        envGet_envSet_other base k0 (pystr v0) k hne]

lemma mergeEnv_mem_val (env : List (String × JVal)) :
    ∀ (base : List (String × String)) (k : String) (v : JVal),
      (env.map Prod.fst).Nodup → (k, v) ∈ env → v ≠ JVal.jnull →
      envGet (mergeEnv base env) k = some (pystr v) := by
  induction env with
  | nil => simp
  | cons kv rest ih =>
    intro base k v hnd hm hv
    obtain ⟨k0, v0⟩ := kv
    simp only [List.map_cons, List.nodup_cons] at hnd
    obtain ⟨hk0, hndr⟩ := hnd
    rcases List.mem_cons.mp hm with heq | hmr
    · obtain ⟨hk, hv0⟩ := Prod.mk.injEq k v k0 v0 ▸ heq
      subst hk; subst hv0
      rw [mergeEnv_cons_val base k v rest hv,
        mergeEnv_not_mem rest _ k hk0]
      exact envGet_envSet_self base k (pystr v)
    · by_cases hv0 : v0 = JVal.jnull
      · subst hv0
        rw [mergeEnv_cons_null]
        exact ih _ k v hndr hmr hv
      · rw [mergeEnv_cons_val base k0 v0 rest hv0]
        exact ih _ k v hndr hmr hv

lemma mergeEnv_mem_null (env : List (String × JVal)) :
    ∀ (base : List (String × String)) (k : String),
      (env.map Prod.fst).Nodup → (k, JVal.jnull) ∈ env →
      envGet (mergeEnv base env) k = envGet base k := by
  induction env with
  | nil => simp
  | cons kv rest ih =>
    intro base k hnd hm
    obtain ⟨k0, v0⟩ := kv
    simp only [List.map_cons, List.nodup_cons] at hnd
    obtain ⟨hk0, hndr⟩ := hnd
    rcases List.mem_cons.mp hm with heq | hmr
    · obtain ⟨hk, hv0⟩ := Prod.mk.injEq k JVal.jnull k0 v0 ▸ heq
      subst hk
      rw [← hv0, mergeEnv_cons_null]
      exact mergeEnv_not_mem rest base k hk0
    · have hkmem : k ∈ rest.map Prod.fst :=
        List.mem_map.mpr ⟨(k, JVal.jnull), hmr, rfl⟩
      have hkne : k ≠ k0 := fun h => hk0 (h ▸ hkmem)
      by_cases hv0 : v0 = JVal.jnull
      · subst hv0
        rw [mergeEnv_cons_null]
        exact ih base k hndr hmr
      · rw [mergeEnv_cons_val base k0 v0 rest hv0,
          ih _ k hndr hmr,
          envGet_envSet_other base k0 (pystr v0) k hkne]

/-- Claim C5: the environment passed to the launched process equals the base
process environment extended and overridden by exactly the non-null entries
of the spec environment; null-valued keys are skipped entirely (no override),
and every base variable not named in the spec environment is retained; in
particular for env A=1, B=null the effective environment has A=1, no override
for B, and the base elsewhere. -/
theorem env_merge_law (base : List (String × String)) (env : List (String × JVal))
    (hnd : (env.map Prod.fst).Nodup) :
    (∀ k v, (k, v) ∈ env → v ≠ JVal.jnull →
      envGet (mergeEnv base env) k = some (pystr v)) ∧
    (∀ k, (k, JVal.jnull) ∈ env → envGet (mergeEnv base env) k = envGet base k) ∧
    (∀ k, k ∉ env.map Prod.fst → envGet (mergeEnv base env) k = envGet base k) ∧
    (envGet (mergeEnv base [("A", JVal.jstr "1"), ("B", JVal.jnull)]) "A" = some "1" ∧
     ∀ k, k ≠ "A" →
       envGet (mergeEnv base [("A", JVal.jstr "1"), ("B", JVal.jnull)]) k = envGet base k) := by
  refine ⟨fun k v hm hv => mergeEnv_mem_val env base k v hnd hm hv,
    fun k hm => mergeEnv_mem_null env base k hnd hm,
    fun k hk => mergeEnv_not_mem env base k hk, ?_, ?_⟩
  · rw [mergeEnv_cons_val base "A" (JVal.jstr "1") _ (by decide), mergeEnv_cons_null]
    exact envGet_envSet_self base "A" "1"
  · intro k hk
    rw [mergeEnv_cons_val base "A" (JVal.jstr "1") _ (by decide), mergeEnv_cons_null]
    exact envGet_envSet_other base "A" "1" k hk

/-- Witness for env_merge_law at a concrete base environment and the spec
example env A=1, B=null. -/
theorem env_merge_law_witness :
    envGet (mergeEnv [("PATH", "/usr/bin"), ("B", "keep")]
      [("A", JVal.jstr "1"), ("B", JVal.jnull)]) "A" = some "1" ∧
    envGet (mergeEnv [("PATH", "/usr/bin"), ("B", "keep")]
      [("A", JVal.jstr "1"), ("B", JVal.jnull)]) "B" = some "keep" ∧
    envGet (mergeEnv [("PATH", "/usr/bin"), ("B", "keep")]
      [("A", JVal.jstr "1"), ("B", JVal.jnull)]) "PATH" = some "/usr/bin" := by
  have h := env_merge_law [("PATH", "/usr/bin"), ("B", "keep")]
    [("A", JVal.jstr "1"), ("B", JVal.jnull)] (by decide)
  refine ⟨h.1 "A" (JVal.jstr "1") (by decide) (by decide), ?_, ?_⟩
  · rw [h.2.1 "B" (by decide)]; decide
  · rw [h.2.2.1 "PATH" (by decide)]; decide

/-- Claim C10: every non-null env value, of any JSON scalar type, is coerced
to its str() rendering before being placed in the merged environment; such a
value is accepted and stringified, never rejected and never passed through
unconverted. -/
theorem env_values_stringified (base : List (String × String))
    (env : List (String × JVal)) (hnd : (env.map Prod.fst).Nodup) :
    (∀ k v, (k, v) ∈ env → v ≠ JVal.jnull →
      envGet (mergeEnv base env) k = some (pystr v)) ∧
    pystr (JVal.jint 42) = "42" ∧
    pystr (JVal.jint (-7)) = "-7" ∧
    pystr (JVal.jbool true) = "True" ∧
    pystr (JVal.jbool false) = "False" ∧
    pystr (JVal.jstr "token") = "token" := by
  exact ⟨fun k v hm hv => mergeEnv_mem_val env base k v hnd hm hv,
    by decide, by decide, rfl, rfl, rfl⟩

/-- Witness for env_values_stringified: a numeric and a boolean env value at
concrete inputs. -/
theorem env_values_stringified_witness :
    envGet (mergeEnv [] [("N", JVal.jint 42), ("F", JVal.jbool false)]) "N" = some "42" ∧
    envGet (mergeEnv [] [("N", JVal.jint 42), ("F", JVal.jbool false)]) "F" = some "False" := by
  have h := env_values_stringified [] [("N", JVal.jint 42), ("F", JVal.jbool false)]
    (by decide)
  exact ⟨h.1 "N" (JVal.jint 42) (by decide) (by decide),
    h.1 "F" (JVal.jbool false) (by decide) (by decide)⟩

lemma loadLoop_no_ok_of_missing (gen : Nat → String) :
    ∀ (cfgs : List (String × BotConfig)) (i : Nat),
      (∃ p ∈ cfgs, missingRequired p.2 = true) →
      ∀ res, loadLoop gen i cfgs ≠ Except.ok res := by
  intro cfgs
  induction cfgs with
  | nil => intro i h res; simp at h
  | cons p rest ih =>
    intro i h res hok
    obtain ⟨name, cfg⟩ := p
    by_cases hm : missingRequired cfg = true
    · simp [loadLoop, hm] at hok
    · have hrest : ∃ q ∈ rest, missingRequired q.2 = true := by
        rcases h with ⟨q, hq, hqm⟩
        rcases List.mem_cons.mp hq with hq0 | hq'
        · subst hq0; exact absurd hqm hm
        · exact ⟨q, hq', hqm⟩
      rw [Bool.not_eq_true] at hm
      by_cases hh : startsWithHttp (cfg.source.getD "") = true
      · rcases heq : loadLoop gen (i + 1) rest with e | tail
        · simp [loadLoop, hm, hh, heq] at hok
        · exact ih (i + 1) hrest tail heq
      · rw [Bool.not_eq_true] at hh
        simp [loadLoop, hm, hh] at hok

lemma loadLoop_append_ok (gen : Nat → String) :
    ∀ (pre l : List (String × BotConfig)) (i : Nat),
      (∀ p ∈ pre, entryOk p.2 = true) →
      loadLoop gen i (pre ++ l) =
        (loadLoop gen (i + pre.length) l).map (fun t => prefixAll gen i pre ++ t) := by
  intro pre
  induction pre with
  | nil =>
    intro l i _
    rcases heq : loadLoop gen i l with e | t <;>
      simp [prefixAll, Except.map, heq]
  | cons p rest ih =>
    intro l i h
    obtain ⟨name, cfg⟩ := p
    have hok : entryOk cfg = true := h (name, cfg) (List.mem_cons_self _ _)
    unfold entryOk at hok
    rw [Bool.and_eq_true] at hok
    obtain ⟨h1, hh⟩ := hok
    have hm : missingRequired cfg = false := by
      unfold missingRequired; simp [h1]
    have hrest : ∀ q ∈ rest, entryOk q.2 = true :=
      fun q hq => h q (List.mem_cons_of_mem _ hq)
    have hidx : i + 1 + rest.length = i + (rest.length + 1) := by omega
    rcases heq : loadLoop gen (i + (rest.length + 1)) l with e | t
    · simp [loadLoop, hm, hh, ih l (i + 1) hrest, hidx, heq, Except.map, prefixAll]
    · simp [loadLoop, hm, hh, ih l (i + 1) hrest, hidx, heq, Except.map, prefixAll]

/-- Claim C3: a document in which some entry is missing source, run, or env
makes load_config raise a ValueError; no workload from the document is
returned (all-or-nothing, entries preceding the bad one included), and when
every entry before the offender validates, the error names the offending
workload's prefixed identity. -/
theorem load_config_missing_field (gen : Nat → String)
    (cfgs : List (String × BotConfig))
    (h : ∃ p ∈ cfgs, missingRequired p.2 = true) :
    (∀ res, load_config gen cfgs ≠ Except.ok res) ∧
    (∀ pre name cfg post, cfgs = pre ++ (name, cfg) :: post →
      (∀ p ∈ pre, entryOk p.2 = true) → missingRequired cfg = true →
      load_config gen cfgs =
        Except.error
          ("Invalid configuration for " ++ prefixedName gen pre.length name ++ ".")) := by
  constructor
  · exact fun res => loadLoop_no_ok_of_missing gen cfgs 0 h res
  · intro pre name cfg post hsplit hpre hmiss
    subst hsplit
    unfold load_config
    rw [loadLoop_append_ok gen pre ((name, cfg) :: post) 0 hpre]
    simp [loadLoop, hmiss, Except.map]

/-- Witness for load_config_missing_field: a two-entry document whose second
entry lacks the run field. -/
theorem load_config_missing_field_witness :
    load_config (fun _ => "quiet fox") [("echo", echoCfg), ("bad", badFieldCfg)] =
      Except.error "Invalid configuration for quiet fox bad." ∧
    ∀ res, load_config (fun _ => "quiet fox") [("echo", echoCfg), ("bad", badFieldCfg)] ≠
      Except.ok res := by
  have h := load_config_missing_field (fun _ => "quiet fox")
    [("echo", echoCfg), ("bad", badFieldCfg)]
    ⟨("bad", badFieldCfg), by decide, by decide⟩
  exact ⟨(h.2 [("echo", echoCfg)] "bad" badFieldCfg [] rfl (by decide) (by decide)).trans
    (by decide), h.1⟩

/-- Claim C4: an entry whose source does not begin with the network scheme
characters h t t p makes load_config raise a ValueError naming it, while an
entry whose source does begin with them passes this validation and is loaded
under its prefixed identity. -/
theorem load_config_scheme_check (gen : Nat → String)
    (pre post : List (String × BotConfig)) (name : String) (cfg : BotConfig)
    (hpre : ∀ p ∈ pre, entryOk p.2 = true)
    (hf : hasRequiredFields cfg = true) :
    (startsWithHttp (cfg.source.getD "") = false →
      load_config gen (pre ++ (name, cfg) :: post) =
        Except.error
          ("Invalid source URL for " ++ prefixedName gen pre.length name ++ ".")) ∧
    (startsWithHttp (cfg.source.getD "") = true →
      load_config gen (pre ++ (name, cfg) :: post) =
        (loadLoop gen (pre.length + 1) post).map
          (fun t => prefixAll gen 0 pre ++ (prefixedName gen pre.length name, cfg) :: t)) := by
  have hm : missingRequired cfg = false := by unfold missingRequired; simp [hf]
  constructor
  · intro hh
    unfold load_config
    rw [loadLoop_append_ok gen pre _ 0 hpre]
    simp [loadLoop, hm, hh, Except.map]
  · intro hh
    unfold load_config
    rw [loadLoop_append_ok gen pre _ 0 hpre]
    rcases heq : loadLoop gen (pre.length + 1) post with e | t <;>
      simp [loadLoop, hm, hh, heq, Except.map]

/-- Witness for load_config_scheme_check: a rejected git-scheme entry and an
accepted https entry. -/
theorem load_config_scheme_check_witness :
    load_config (fun _ => "red fish") [("bad", badSchemeCfg)] =
      Except.error "Invalid source URL for red fish bad." ∧
    load_config (fun _ => "red fish") [("echo", echoCfg)] =
      Except.ok [("red fish echo", echoCfg)] := by
  constructor
  · exact ((load_config_scheme_check (fun _ => "red fish") [] [] "bad" badSchemeCfg
      (by simp) (by decide)).1 (by decide)).trans (by decide)
  · exact ((load_config_scheme_check (fun _ => "red fish") [] [] "echo" echoCfg
      (by simp) (by decide)).2 (by decide)).trans (by decide)

lemma andThen_val {α β : Type} (t : Effect α) (f : α → Effect β) :
    (andThen t f).2.2 = match t.2.2 with
      | Except.error e => Except.error e
      | Except.ok a => (f a).2.2 := by
  rcases t with ⟨as, ls, r⟩
  cases r <;> rfl

lemma andThen_logs {α β : Type} (t : Effect α) (f : α → Effect β) :
    (andThen t f).2.1 = match t.2.2 with
      | Except.error _ => t.2.1
      | Except.ok a => t.2.1 ++ (f a).2.1 := by
  rcases t with ⟨as, ls, r⟩
  cases r <;> rfl

lemma andThen_acts {α β : Type} (t : Effect α) (f : α → Effect β) :
    (andThen t f).1 = match t.2.2 with
      | Except.error _ => t.1
      | Except.ok a => t.1 ++ (f a).1 := by
  rcases t with ⟨as, ls, r⟩
  cases r <;> rfl

lemma except_split {ε α : Type} (x : Except ε α) :
    (∃ e, x = Except.error e) ∨ ∃ a, x = Except.ok a := by
  cases x with
  | error e => exact Or.inl ⟨e, rfl⟩
  | ok a => exact Or.inr ⟨a, rfl⟩

lemma stepPrepare_noerr (name : String) (o : Oracle)
    (hmk : o.mkdirErr = none) (hrm : o.rmtreeErr = none) :
    stepPrepare name o =
      ((if o.dirFiles.isNone then [Act.mkdirA (botDir name)] else []) ++
        [Act.rmtreeA (botDir name)],
       (if o.dirFiles.isNone then
          [mkLog Level.info ("Creating directory for " ++ name ++ ": " ++ botDir name)]
        else []) ++
        [mkLog Level.info ("Removing existing directory: " ++ botDir name)],
       Except.ok (prepare_dir o.dirFiles)) := by
  rcases hdf : o.dirFiles with _ | fs <;>
    simp [stepPrepare, prepare_dir, andThen, hmk, hrm, hdf]

lemma stepClone_ok (name : String) (cfg : BotConfig) (o : Oracle) (r : CmdResult)
    (hcs : o.cloneSpawn = Except.ok r) (hrc : r.returncode = 0) :
    stepClone name cfg o =
      ([Act.runCmd (gitArgv (cfg.branch.getD "main") (cfg.source.getD "") (botDir name))
          none none none none],
       [mkLog Level.info ("Cloning " ++ name ++ " from " ++ cfg.source.getD "" ++
          " (branch: " ++ cfg.branch.getD "main" ++ ")")],
       Except.ok true) := by
  simp [stepClone, hcs, hrc]

lemma stepClone_fail (name : String) (cfg : BotConfig) (o : Oracle) (r : CmdResult)
    (hcs : o.cloneSpawn = Except.ok r) (hrc : r.returncode ≠ 0) :
    stepClone name cfg o =
      ([Act.runCmd (gitArgv (cfg.branch.getD "main") (cfg.source.getD "") (botDir name))
          none none none none],
       [mkLog Level.info ("Cloning " ++ name ++ " from " ++ cfg.source.getD "" ++
          " (branch: " ++ cfg.branch.getD "main" ++ ")"),
        mkLog Level.error ("Error while cloning " ++ name ++ ": " ++ r.stderr)],
       Except.ok false) := by
  simp [stepClone, hcs, hrc]

lemma stepClone_trichotomy (name : String) (cfg : BotConfig) (o : Oracle) :
    (∃ m, (stepClone name cfg o).2.2 = Except.error (PyExc.osError m)) ∨
    ((stepClone name cfg o).2.2 = Except.ok false ∧
      ∃ e ∈ (stepClone name cfg o).2.1, e.level = Level.error) ∨
    (stepClone name cfg o).2.2 = Except.ok true := by
  rcases hcs : o.cloneSpawn with m | r
  · exact Or.inl ⟨m, by simp [stepClone, hcs]⟩
  · by_cases hrc : r.returncode = 0
    · exact Or.inr (Or.inr (by simp [stepClone, hcs, hrc]))
    · refine Or.inr (Or.inl ⟨by simp [stepClone, hcs, hrc], ?_⟩)
      refine ⟨mkLog Level.error ("Error while cloning " ++ name ++ ": " ++ r.stderr),
        ?_, rfl⟩
      simp [stepClone, hcs, hrc]

lemma stepPip_ok (name : String) (o : Oracle)
    (hpip : o.reqExists = true → o.pipSpawn = Except.ok 0) :
    stepPip name o =
      ((if o.reqExists then
          [Act.runCmd (pipArgv (botDir name ++ "/requirements.txt")) none none none none]
        else []),
       (if o.reqExists then [mkLog Level.info ("Installing requirements for " ++ name)]
        else []),
       Except.ok ()) := by
  rcases hreq : o.reqExists
  · simp [stepPip, hreq]
  · simp [stepPip, hreq, hpip hreq]

lemma stepExec_eq (name : String) (cfg : BotConfig) (benv : List (String × String))
    (o : Oracle) (hopen : o.openErr = none) :
    stepExec name cfg benv o =
      ([Act.openLog (logPath name),
        Act.runCmd (execArgv (pathJoin (botDir name) (cfg.run.getD "")))
          (some (botDir name)) (some benv) (some (logPath name)) (some (logPath name))],
       [execLogMsg name (pathJoin (botDir name) (cfg.run.getD ""))],
       match o.execSpawn with
       | some m => Except.error (PyExc.osError m)
       | none => Except.ok ()) := by
  rcases hes : o.execSpawn with _ | m <;> simp [stepExec, hopen, hes]

lemma tryBody_trichotomy (name : String) (cfg : BotConfig)
    (benv : List (String × String)) (o : Oracle) :
    ((tryBody name cfg benv o).2.2 = Except.ok (some (logPath name))) ∨
    ((tryBody name cfg benv o).2.2 = Except.ok none ∧
      ∃ e ∈ (tryBody name cfg benv o).2.1, e.level = Level.error) ∨
    (∃ ex, (tryBody name cfg benv o).2.2 = Except.error ex) := by
  rcases except_split (stepPrepare name o).2.2 with ⟨e, he⟩ | ⟨d, hd⟩
  · exact Or.inr (Or.inr ⟨e, by simp [tryBody, andThen_val, he]⟩)
  · rcases stepClone_trichotomy name cfg o with ⟨m, hc⟩ | ⟨hc, e, hemem, helev⟩ | hc
    · exact Or.inr (Or.inr ⟨PyExc.osError m, by simp [tryBody, andThen_val, hd, hc]⟩)
    · refine Or.inr (Or.inl ⟨by simp [tryBody, andThen_val, hd, hc], e, ?_, helev⟩)
      simp only [tryBody, andThen_logs, andThen_val, hd, hc, Bool.false_eq_true,
        if_false, List.append_nil, List.mem_append]
      exact Or.inr hemem
    · rcases except_split (stepPip name o).2.2 with ⟨e2, hp⟩ | ⟨a2, hp⟩
      · exact Or.inr (Or.inr ⟨e2, by simp [tryBody, andThen_val, hd, hc, hp]⟩)
      · rcases except_split (stepExec name cfg benv o).2.2 with ⟨e3, hx⟩ | ⟨a3, hx⟩
        · exact Or.inr (Or.inr ⟨e3, by simp [tryBody, andThen_val, hd, hc, hp, hx]⟩)
        · exact Or.inl (by simp [tryBody, andThen_val, hd, hc, hp, hx])

lemma start_bot_result_cases (name : String) (cfg : BotConfig) (o : Oracle) :
    (start_bot name cfg o).result = some (logPath name) ∨
    ((start_bot name cfg o).result = none ∧
      ∃ e ∈ (start_bot name cfg o).logs, e.level = Level.error) := by
  rcases tryBody_trichotomy name cfg (mergeEnv o.baseEnv (cfg.env.getD [])) o with
    h | ⟨h, e, hm, hl⟩ | ⟨ex, h⟩
  · exact Or.inl (by simp [start_bot, h])
  · refine Or.inr ⟨by simp [start_bot, h], e, ?_, hl⟩
    simp only [start_bot, h, List.mem_append]
    exact Or.inr hm
  · right
    cases ex with
    | calledProcessError m =>
      refine ⟨by simp [start_bot, h],
        mkLog Level.error ("Error while processing " ++ name ++ ": " ++ m), ?_, rfl⟩
      simp [start_bot, h]
    | osError m =>
      refine ⟨by simp [start_bot, h],
        mkLog Level.error ("Unexpected error while starting " ++ name ++ ": " ++ m),
        ?_, rfl⟩
      simp [start_bot, h]

/-- Claim C2: per-workload failures (fetch, install, OS-level) are caught at
the start_bot boundary and become a logged error plus a None return; the
supervisor's exit status does not depend on any workload's outcome and is
zero exactly when the configuration loads, so only a configuration error at
startup yields a non-zero exit. -/
theorem per_workload_failures_contained :
    (∀ (doc : List (String × BotConfig)) (gen : Nat → String)
      (ow ow' : String → Oracle),
      supervisor_exit_code doc gen ow = supervisor_exit_code doc gen ow') ∧
    (∀ (doc : List (String × BotConfig)) (gen : Nat → String) (ow : String → Oracle),
      supervisor_exit_code doc gen ow = 0 ↔
        ∃ bots, load_config gen doc = Except.ok bots) ∧
    (∀ (name : String) (cfg : BotConfig) (o : Oracle),
      (start_bot name cfg o).result = some (logPath name) ∨
      ((start_bot name cfg o).result = none ∧
        ∃ e ∈ (start_bot name cfg o).logs, e.level = Level.error)) := by
  refine ⟨?_, ?_, fun name cfg o => start_bot_result_cases name cfg o⟩
  · intro doc gen ow ow'
    unfold supervisor_exit_code
    cases load_config gen doc <;> rfl
  · intro doc gen ow
    rcases heq : load_config gen doc with e | bots
    · simp [supervisor_exit_code, heq]
    · exact iff_of_true (by simp [supervisor_exit_code, heq]) ⟨bots, rfl⟩

/-- Witness for per_workload_failures_contained: with a clone-failing oracle
the workload returns None yet the supervisor exit status is 0. -/
theorem per_workload_failures_contained_witness :
    supervisor_exit_code [("echo", echoCfg)] (fun _ => "quiet fox")
      (fun _ => cloneFailOracle) = 0 ∧
    (start_bot "quiet fox echo" echoCfg cloneFailOracle).result = none := by
  constructor
  · exact (per_workload_failures_contained.2.1 [("echo", echoCfg)]
      (fun _ => "quiet fox") (fun _ => cloneFailOracle)).mpr
      ⟨[("quiet fox echo", echoCfg)], by decide⟩
  · rcases per_workload_failures_contained.2.2 "quiet fox echo" echoCfg
      cloneFailOracle with hs | ⟨hn, _⟩
    · exact absurd hs (by decide)
    · exact hn

lemma start_bot_actions (name : String) (cfg : BotConfig) (o : Oracle) :
    (start_bot name cfg o).actions =
      Act.sleep 5 :: (tryBody name cfg (mergeEnv o.baseEnv (cfg.env.getD [])) o).1 := by
  rcases h : (tryBody name cfg (mergeEnv o.baseEnv (cfg.env.getD [])) o).2.2 with ex | v
  · cases ex <;> simp [start_bot, h]
  · simp [start_bot, h]

lemma start_bot_logs_contain_try (name : String) (cfg : BotConfig) (o : Oracle)
    (e : LogEntry)
    (h : e ∈ (tryBody name cfg (mergeEnv o.baseEnv (cfg.env.getD [])) o).2.1) :
    e ∈ (start_bot name cfg o).logs := by
  rcases hv : (tryBody name cfg (mergeEnv o.baseEnv (cfg.env.getD [])) o).2.2 with ex | v
  · cases ex <;>
      · simp only [start_bot, hv, List.append_assoc, List.mem_append]
        exact Or.inr (Or.inl h)
  · simp only [start_bot, hv, List.mem_append]
    exact Or.inr h

/-- Claim C7: the runner dispatches on the entry-point extension, selecting
bash for a .sh entry point and python3 otherwise, and (whenever execution is
reached) invokes the chosen interpreter with cwd set to the workload
directory, the merged environment, and stdout and stderr both redirected to
the opened per-workload log file, which is opened beforehand. -/
theorem entry_point_dispatch (name : String) (cfg : BotConfig) (o : Oracle)
    (r : CmdResult)
    (hmk : o.mkdirErr = none) (hrm : o.rmtreeErr = none)
    (hcs : o.cloneSpawn = Except.ok r) (hrc : r.returncode = 0)
    (hpip : o.reqExists = true → o.pipSpawn = Except.ok 0)
    (hopen : o.openErr = none) :
    (∀ file, pySuffix file = ".sh" → execArgv file = ["bash", file]) ∧
    (∀ file, pySuffix file ≠ ".sh" → execArgv file = ["python3", file]) ∧
    (∃ as, (start_bot name cfg o).actions =
      as ++ [Act.runCmd (execArgv (pathJoin (botDir name) (cfg.run.getD "")))
        (some (botDir name)) (some (mergeEnv o.baseEnv (cfg.env.getD [])))
        (some (logPath name)) (some (logPath name))] ∧
      Act.openLog (logPath name) ∈ as) := by
  refine ⟨fun file h => by simp [execArgv, h], fun file h => by simp [execArgv, h], ?_⟩
  have hprep := stepPrepare_noerr name o hmk hrm
  have hclone := stepClone_ok name cfg o r hcs hrc
  have hp := stepPip_ok name o hpip
  have hexec := stepExec_eq name cfg (mergeEnv o.baseEnv (cfg.env.getD [])) o hopen
  refine ⟨Act.sleep 5 ::
    ((if o.dirFiles.isNone then [Act.mkdirA (botDir name)] else []) ++
      [Act.rmtreeA (botDir name)] ++
      [Act.runCmd (gitArgv (cfg.branch.getD "main") (cfg.source.getD "") (botDir name))
        none none none none] ++
      (if o.reqExists then
        [Act.runCmd (pipArgv (botDir name ++ "/requirements.txt")) none none none none]
      else []) ++
      [Act.openLog (logPath name)]), ?_, ?_⟩
  · rw [start_bot_actions]
    rcases hes : o.execSpawn with _ | m <;>
      · rw [hes] at hexec
        simp [tryBody, andThen, hprep, hclone, hp, hexec]
  · simp

/-- Witness for entry_point_dispatch: a .sh entry point selects bash, and the
recorded invocation carries the workload cwd, merged environment, and log
redirections. -/
theorem entry_point_dispatch_witness :
    pySuffix (pathJoin (botDir "red fox sh") (shellCfg.run.getD "")) = ".sh" ∧
    execArgv (pathJoin (botDir "red fox sh") (shellCfg.run.getD "")) =
      ["bash", "/app/red_fox_sh/start.sh"] ∧
    Act.runCmd (execArgv (pathJoin (botDir "red fox sh") (shellCfg.run.getD "")))
      (some (botDir "red fox sh"))
      (some (mergeEnv okOracle.baseEnv (shellCfg.env.getD [])))
      (some (logPath "red fox sh")) (some (logPath "red fox sh")) ∈
      (start_bot "red fox sh" shellCfg okOracle).actions ∧
    Act.openLog (logPath "red fox sh") ∈
      (start_bot "red fox sh" shellCfg okOracle).actions := by
  have h := entry_point_dispatch "red fox sh" shellCfg okOracle ⟨0, ""⟩ rfl rfl rfl rfl
    (fun _ => rfl) rfl
  obtain ⟨as, hacts, hin⟩ := h.2.2
  refine ⟨by decide, (h.1 _ (by decide)).trans (by decide), ?_, ?_⟩
  · rw [hacts]; simp
  · rw [hacts]
    exact List.mem_append_left _ hin

/-- Claim C8: a non-zero fetch-tool exit makes the runner record the captured
error detail and return None without raising and without retrying (exactly
one clone invocation), skipping the install, log-open, and execution steps;
and each workload's collected outcome depends only on its own oracle, so
sibling workloads are unaffected. -/
theorem fetch_failure_isolated (name : String) (cfg : BotConfig) (o : Oracle)
    (r : CmdResult)
    (hmk : o.mkdirErr = none) (hrm : o.rmtreeErr = none)
    (hcs : o.cloneSpawn = Except.ok r) (hrc : r.returncode ≠ 0) :
    (start_bot name cfg o).result = none ∧
    mkLog Level.error ("Error while cloning " ++ name ++ ": " ++ r.stderr) ∈
      (start_bot name cfg o).logs ∧
    ((start_bot name cfg o).actions.filter isGitClone).length = 1 ∧
    (∀ a ∈ (start_bot name cfg o).actions,
      isPipInstall a = false ∧ isExecCmd a = false ∧ isOpenLog a = false) ∧
    (∀ (bots : List (String × BotConfig)) (ow ow' : String → Oracle)
      (table : List (String × ProcHandle)) (i : Nat),
      (∀ hi : i < bots.length, ow bots[i].1 = ow' bots[i].1) →
      (run_launches bots ow table).1[i]? = (run_launches bots ow' table).1[i]?) := by
  have hprep := stepPrepare_noerr name o hmk hrm
  have hcf := stepClone_fail name cfg o r hcs hrc
  have hval : (tryBody name cfg (mergeEnv o.baseEnv (cfg.env.getD [])) o).2.2 =
      Except.ok none := by
    simp [tryBody, andThen, hprep, hcf]
  have hlog : mkLog Level.error ("Error while cloning " ++ name ++ ": " ++ r.stderr) ∈
      (tryBody name cfg (mergeEnv o.baseEnv (cfg.env.getD [])) o).2.1 := by
    simp [tryBody, andThen, hprep, hcf]
  have hacts : (tryBody name cfg (mergeEnv o.baseEnv (cfg.env.getD [])) o).1 =
      (if o.dirFiles.isNone then [Act.mkdirA (botDir name)] else []) ++
        [Act.rmtreeA (botDir name)] ++
        [Act.runCmd (gitArgv (cfg.branch.getD "main") (cfg.source.getD "")
          (botDir name)) none none none none] := by
    simp [tryBody, andThen, hprep, hcf]
  refine ⟨by simp [start_bot, hval], start_bot_logs_contain_try name cfg o _ hlog,
    ?_, ?_, ?_⟩
  · rw [start_bot_actions, hacts]
    rcases o.dirFiles with _ | fs <;>
      simp [isGitClone, gitArgv, List.filter]
  · rw [start_bot_actions, hacts]
    rcases o.dirFiles with _ | fs <;>
      simp [isPipInstall, isExecCmd, isOpenLog, gitArgv]
  · intro bots ow ow' table i h
    by_cases hi : i < bots.length
    · simp only [run_launches, List.getElem?_map]
      rw [List.getElem?_eq_getElem hi]
      simp [h hi]
    · simp only [run_launches, List.getElem?_map]
      rw [List.getElem?_eq_none (by simpa using Nat.le_of_not_lt hi)]
      simp

/-- Witness for fetch_failure_isolated: the clone-failing oracle at a
concrete workload. -/
theorem fetch_failure_isolated_witness :
    (start_bot "old pond frog" echoCfg cloneFailOracle).result = none ∧
    mkLog Level.error ("Error while cloning " ++ "old pond frog" ++ ": " ++
      "fatal: repository not found") ∈
      (start_bot "old pond frog" echoCfg cloneFailOracle).logs ∧
    ((start_bot "old pond frog" echoCfg cloneFailOracle).actions.filter
      isGitClone).length = 1 := by
  have h := fetch_failure_isolated "old pond frog" echoCfg cloneFailOracle
    ⟨128, "fatal: repository not found"⟩ rfl rfl rfl (by decide)
  exact ⟨h.1, h.2.1, h.2.2.1⟩

/-- Claim C9: the working-directory preparation step (create-if-missing then
destroy-if-exists) is idempotent: running it twice yields the same directory
state as running it once, a clean state with no leftover files from a prior
run; and inside start_bot the step (absent OS errors) indeed leaves the
directory in that prepared state. -/
theorem prepare_dir_idempotent :
    (∀ s, prepare_dir (prepare_dir s) = prepare_dir s) ∧
    (∀ s, prepare_dir s = none) ∧
    (∀ (name : String) (o : Oracle), o.mkdirErr = none → o.rmtreeErr = none →
      (stepPrepare name o).2.2 = Except.ok (prepare_dir o.dirFiles)) := by
  refine ⟨?_, ?_, ?_⟩
  · intro s; rcases s with _ | fs <;> rfl
  · intro s; rcases s with _ | fs <;> rfl
  · intro name o hmk hrm
    rw [stepPrepare_noerr name o hmk hrm]

/-- Witness for prepare_dir_idempotent at a directory holding a stale file
and at a concrete oracle. -/
theorem prepare_dir_idempotent_witness :
    prepare_dir (prepare_dir (some ["stale.txt"])) = prepare_dir (some ["stale.txt"]) ∧
    prepare_dir (some ["stale.txt"]) = none ∧
    (stepPrepare "old pond frog" okOracle).2.2 =
      Except.ok (prepare_dir okOracle.dirFiles) := by
  exact ⟨prepare_dir_idempotent.1 (some ["stale.txt"]),
    prepare_dir_idempotent.2.1 (some ["stale.txt"]),
    prepare_dir_idempotent.2.2 "old pond frog" okOracle rfl rfl⟩

/-- Claim C6: for a tracked handle, stop_bot first requests graceful
termination, waits at most 5 time-units, and force-kills only if the process
is still alive at the bound; the timeout is logged as a warning and no
error-level record is emitted, with stop_bot returning normally. -/
theorem stop_bot_graceful_then_kill (table : List (String × ProcHandle))
    (name : String) (p : ProcHandle)
    (hfound : lookupHandle table name = some p) :
    (p.stopsWithinTimeout = false →
      (stop_bot table name).1 =
        [StopAct.terminate, StopAct.waitFor 5, StopAct.kill] ∧
      (∃ e ∈ (stop_bot table name).2, e.level = Level.warning) ∧
      (∀ e ∈ (stop_bot table name).2, e.level ≠ Level.error)) ∧
    (p.stopsWithinTimeout = true →
      (stop_bot table name).1 = [StopAct.terminate, StopAct.waitFor 5] ∧
      (∀ e ∈ (stop_bot table name).2, e.level = Level.info)) := by
  constructor
  · intro hto
    refine ⟨by simp [stop_bot, hfound, hto], ?_, ?_⟩
    · exact ⟨mkLog Level.warning
        ("Bot " ++ name ++ " did not terminate in time; force killing..."),
        by simp [stop_bot, hfound, hto], rfl⟩
    · simp [stop_bot, hfound, hto, mkLog]
  · intro hto
    constructor
    · simp [stop_bot, hfound, hto]
    · simp [stop_bot, hfound, hto, mkLog]

/-- Witness for stop_bot_graceful_then_kill: a handle that ignores the
graceful request is force-killed after the 5-unit wait, with a warning. -/
theorem stop_bot_graceful_then_kill_witness :
    (stop_bot [("old pond frog", ⟨false⟩)] "old pond frog").1 =
      [StopAct.terminate, StopAct.waitFor 5, StopAct.kill] ∧
    (∃ e ∈ (stop_bot [("old pond frog", ⟨false⟩)] "old pond frog").2,
      e.level = Level.warning) ∧
    (∀ e ∈ (stop_bot [("old pond frog", ⟨false⟩)] "old pond frog").2,
      e.level ≠ Level.error) := by
  exact (stop_bot_graceful_then_kill [("old pond frog", ⟨false⟩)] "old pond frog"
    ⟨false⟩ (by decide)).1 rfl

/-- Claim C1 is refuted by the code: start_bot (worker.py lines 58-114) never
inserts a handle into bot_processes and stop_bot never deletes one, so even
after the sole workload of this valid one-entry configuration launches with
every external operation succeeding, the tracking table still has 0 entries
rather than 1, and the shutdown path then finds no process to stop. -/
theorem tracking_table_never_populated :
    (start_bot "quiet fox echo" echoCfg okOracle).result =
      some (logPath "quiet fox echo") ∧
    (run_launches [("quiet fox echo", echoCfg)] (fun _ => okOracle) []).2.length = 0 ∧
    ¬ (run_launches [("quiet fox echo", echoCfg)] (fun _ => okOracle) []).2.length = 1 ∧
    (stop_bot (run_launches [("quiet fox echo", echoCfg)] (fun _ => okOracle) []).2
      "quiet fox echo").2 =
      [mkLog Level.info "Stopping bot: quiet fox echo",
       mkLog Level.warning "No running process found for bot: quiet fox echo"] := by
  exact ⟨by decide, rfl, by decide, by decide⟩
